import Mathlib

/-!
# Verification of the pntr windowing / rendering core

Shallow embedding of the Rust sources `src/components/mod.rs`,
`src/layout.rs` and `src/main.rs`. Machine integers are modelled as
`Int`/`Nat` with explicit two's-complement wrapping where the Rust code
can overflow (release-mode semantics); `i32`-valued fields are `Int`
constrained by hypotheses to the representable range where a theorem
quantifies over them, and `u32`-valued fields are `Nat` likewise.
-/

namespace Pntr

/-- Two's-complement wrap of an unbounded integer into the `i32` range,
the value a Rust release-mode `i32` addition/subtraction produces. -/
def wrap32 (z : Int) : Int := (z + 2 ^ 31) % 2 ^ 32 - 2 ^ 31

/-- The Rust cast `(z : i32) as u32` (two's-complement reinterpretation). -/
def u32ofI32 (z : Int) : Nat := (z % 2 ^ 32).toNat

/-- The Rust cast `(w : u32) as i32` (two's-complement reinterpretation). -/
def i32ofU32 (w : Nat) : Int :=
  if w % 2 ^ 32 < 2 ^ 31 then ((w % 2 ^ 32 : Nat) : Int)
  else ((w % 2 ^ 32 : Nat) : Int) - 2 ^ 32

/-- `Point` from `components/mod.rs`: signed 2D integer coordinate. -/
structure Point where
  x : Int
  y : Int
deriving DecidableEq, Repr

/-- `Size` from `components/mod.rs`: unsigned 2D extent. -/
structure Size where
  w : Nat
  h : Nat
deriving DecidableEq, Repr

/-- `Rect` from `components/mod.rs`. -/
structure Rect where
  pos : Point
  size : Size
deriving DecidableEq, Repr

/-- `impl ops::Add for Point` (componentwise `i32` addition, wrapping). -/
def Point.add (a b : Point) : Point :=
  ⟨wrap32 (a.x + b.x), wrap32 (a.y + b.y)⟩

/-- `impl ops::Sub for Point` (componentwise `i32` subtraction, wrapping). -/
def Point.sub (a b : Point) : Point :=
  ⟨wrap32 (a.x - b.x), wrap32 (a.y - b.y)⟩

/-- `TryFrom<Point> for Size` from `components/mod.rs`: each coordinate is
`try_into`-converted from `i32` to `u32`, which fails exactly on negative
values; `none` stands for the `TryFromIntError` result. -/
def Size.tryFrom (p : Point) : Option Size :=
  if p.x < 0 then none
  else if p.y < 0 then none
  else some ⟨p.x.toNat, p.y.toNat⟩

/-- `Rect::inside` from `components/mod.rs`: per dimension,
`self.pos.d <= point.d && point.d <= self.pos.d + self.size.d as i32`,
where the sum is an `i32` addition (wrapping in release mode). -/
def Rect.inside (r : Rect) (p : Point) : Bool :=
  (decide (r.pos.x ≤ p.x) && decide (p.x ≤ wrap32 (r.pos.x + i32ofU32 r.size.w))) &&
  (decide (r.pos.y ≤ p.y) && decide (p.y ≤ wrap32 (r.pos.y + i32ofU32 r.size.h)))

/-- The four arguments handed to `set_scissor_rect`, i.e. the derived
clip-space rectangle. -/
structure ScissorRect where
  x : Nat
  y : Nat
  w : Nat
  h : Nat
deriving DecidableEq, Repr

/-- `RectViewportClipSpace::set_clipspace_rect` from `components/mod.rs`:
```
let x = max(r.pos.x as u32, 0);
let y = max(r.pos.y as u32, 0);
let w = r.size.w + min(r.pos.x as u32, 0);
let h = r.size.h + min(r.pos.y as u32, 0);
self.set_scissor_rect(x, y, w, h);
```
The casts happen before the `max`/`min`, so both operate on `u32`.
Returns the scissor rectangle passed on, or `none` when no rectangle was
given (no `set_scissor_rect` call). -/
def set_clipspace_rect (or : Option Rect) : Option ScissorRect :=
  match or with
  | none => none
  | some r =>
    some ⟨Nat.max (u32ofI32 r.pos.x) 0,
          Nat.max (u32ofI32 r.pos.y) 0,
          (r.size.w + Nat.min (u32ofI32 r.pos.x) 0) % 2 ^ 32,
          (r.size.h + Nat.min (u32ofI32 r.pos.y) 0) % 2 ^ 32⟩

/-- Modelled from the spec: the reference clip-space derivation of §4.1,
"clamps the rectangle's origin to be non-negative and shrinks width/height
by any negative origin overflow", clamping in signed arithmetic before
converting to unsigned. Stated for comparison with `set_clipspace_rect`. -/
def clipspaceRectSpec (r : Rect) : ScissorRect :=
  ⟨(max r.pos.x 0).toNat,
   (max r.pos.y 0).toNat,
   ((r.size.w : Int) + min r.pos.x 0).toNat,
   ((r.size.h : Int) + min r.pos.y 0).toNat⟩

/-- `InputHandler` from `layout.rs`. -/
structure InputHandler where
  mouse_position : Option Point
deriving DecidableEq, Repr

/-- `InputHandler::get_mouse_relative` from `layout.rs`. -/
def InputHandler.get_mouse_relative (s : InputHandler) (r : Rect) : Option Point :=
  match s.mouse_position with
  | some p => if r.inside p then some (p.sub r.pos) else none
  | none => none

/-- `WindowLifeStatus` from `layout.rs`. -/
inductive WindowLifeStatus where
  | Alive
  | Dead
deriving DecidableEq, Repr

/-- The state of a `DrawingWindow` (`layout.rs`) relevant to lifecycle and
surface configuration: the two pending-event flags, the cached drawable
size `self.size` and the surface configuration's width/height. GPU handles
(surface, queue, device) and the canvas carry no lifecycle information and
are not represented. -/
structure DWState where
  resized : Bool
  close : Bool
  sizeW : Nat
  sizeH : Nat
  configW : Nat
  configH : Nat
deriving DecidableEq, Repr

/-- The outcome of one `DrawingWindow::update` call: the successor state,
the returned `WindowLifeStatus` (the `Option<Box<dyn Layout>>` child is
always `None` in `DrawingWindow::update` and is omitted), and whether
`surface.configure` was invoked during the call. -/
structure UpdateResult where
  state : DWState
  status : WindowLifeStatus
  reconfigured : Bool
deriving DecidableEq, Repr

/-- `DrawingWindow::update` from `layout.rs`. `newW`/`newH` are the values
`self.window().inner_size()` reports when the pending-resize branch reads
it (an external input). Mirrors the source control flow: the degenerate
resize branch `return (Alive, None)`s before the close flag is examined;
otherwise the surface is reconfigured, then the close flag is checked. -/
def DWState.update (s : DWState) (newW newH : Nat) : UpdateResult :=
  if s.resized then
    if newW = 0 ∨ newH = 0 then
      ⟨{ s with resized := false }, .Alive, false⟩
    else
      let s2 : DWState :=
        { s with resized := false, sizeW := newW, sizeH := newH,
                 configW := newW, configH := newH }
      if s2.close then ⟨{ s2 with close := false }, .Dead, true⟩
      else ⟨s2, .Alive, true⟩
  else if s.close then ⟨{ s with close := false }, .Dead, false⟩
  else ⟨s, .Alive, false⟩

/-- The window events `DrawingWindow::event_handler` inspects for its
flags. Keyboard and mouse arms only touch the canvas and the redraw
scheduler, never the flags or the lifecycle; they are summarised by
`other`. -/
inductive WinEvent where
  | closeRequested
  | resizedEvent
  | other
deriving DecidableEq, Repr

/-- `DrawingWindow::event_handler` from `layout.rs`, restricted to its
effect on the window state: `CloseRequested` sets the pending-close flag,
`Resized(_)` sets the pending-resize flag, every other arm leaves the
state unchanged. It returns no lifecycle status: transitions happen only
in `update`. -/
def DWState.event_handler (s : DWState) : WinEvent → DWState
  | .closeRequested => { s with close := true }
  | .resizedEvent => { s with resized := true }
  | .other => s

/-- The outcome `surface.get_current_texture()` reports to
`DrawingWindow::render`: `wgpu::SurfaceError::{Lost, OutOfMemory,
Timeout, Outdated}` or a successfully acquired image. -/
inductive SurfaceResult where
  | ok
  | lost
  | outOfMemory
  | timeout
  | outdated
deriving DecidableEq, Repr

/-- The outcome of one `DrawingWindow::render` call: successor state, the
number of diagnostics printed by the `Err(e) => eprintln!` arm, and
whether a frame was submitted and presented. -/
structure RenderResult where
  state : DWState
  diagnostics : Nat
  presented : Bool
deriving DecidableEq, Repr

/-- `DrawingWindow::render` from `layout.rs`: `Lost` sets the
pending-resize flag, `OutOfMemory` sets the pending-close flag, any other
acquisition error prints one diagnostic and does nothing else, success
renders and presents the frame. -/
def DWState.render (s : DWState) : SurfaceResult → RenderResult
  | .lost => ⟨{ s with resized := true }, 0, false⟩
  | .outOfMemory => ⟨{ s with close := true }, 0, false⟩
  | .timeout => ⟨s, 1, false⟩
  | .outdated => ⟨s, 1, false⟩
  | .ok => ⟨s, 0, true⟩

/-! ## The window multiplexer (`main.rs`)

`run` owns `window_map : HashMap<WindowId, Box<dyn Layout>>`. We model it
as an association list from window id (`Nat`) to `DWState`; `HashMap`
keys are unique, which theorems assume through `Nodup` hypotheses where
it matters. -/

/-- The `Event::WindowEvent` arm of `run` (`main.rs`): look up the target
window; if absent, print `"Ignoring event to invalid window"` and return;
otherwise run its `event_handler`. Result: the updated map and the number
of diagnostics the multiplexer printed. -/
def dispatchWindowEvent (m : List (Nat × DWState)) (wid : Nat) (e : WinEvent) :
    List (Nat × DWState) × Nat :=
  match m.lookup wid with
  | none => (m, 1)
  | some _ =>
    (m.map (fun kv => if kv.1 = wid then (kv.1, kv.2.event_handler e) else kv), 0)

/-- The `Event::RedrawRequested(wid) | Event::UserEvent(ShouldRedraw(wid))`
arm of `run` (`main.rs`): `if let Some(layout) = window_map.get_mut(&wid)`
render it, else fall through silently. `sr` is what surface acquisition
reports during that render. Result: updated map and the number of
diagnostics the multiplexer printed for the dispatch (the render's own
diagnostics are in `RenderResult.diagnostics`). -/
def dispatchRedraw (m : List (Nat × DWState)) (wid : Nat) (sr : SurfaceResult) :
    List (Nat × DWState) × Nat :=
  match m.lookup wid with
  | none => (m, 0)
  | some _ =>
    (m.map (fun kv => if kv.1 = wid then (kv.1, (kv.2.render sr).state) else kv), 0)

/-- One window's contribution to a `MainEventsCleared` cycle: its id and
the `(status, child)` pair its `update` returned this tick. The map is
generic over `Box<dyn Layout>`, so statuses and children are arbitrary
here; a child is represented by its window id. -/
structure MuxEntry where
  id : Nat
  status : WindowLifeStatus
  child : Option Nat
deriving DecidableEq, Repr

/-- The `for child_layout in should_add` loop of `run` (`main.rs`): insert
each child in order, and `panic!("New window has the same Id as other
alive window")` — modelled as `none` — when its id is already a key. -/
def adoptAll (m : List Nat) : List Nat → Option (List Nat)
  | [] => some m
  | c :: rest => if c ∈ m then none else adoptAll (m ++ [c]) rest

/-- The commit phase of the `Event::MainEventsCleared` arm of `run`
(`main.rs`): collect `should_remove` (windows reporting `Dead`) and
`should_add` (children) from the per-window `update` results, apply every
removal, then adopt every child; `none` is the id-collision panic. The
state is the list of live window ids (map keys). -/
def tickCommit (ws : List MuxEntry) : Option (List Nat) :=
  let shouldRemove := (ws.filter (fun w => w.status = .Dead)).map (fun w => w.id)
  let shouldAdd := ws.filterMap (fun w => w.child)
  let afterRemove := (ws.map (fun w => w.id)).filter (fun i => ¬ i ∈ shouldRemove)
  adoptAll afterRemove shouldAdd

/-! ## The pipeline cache (`components/mod.rs`)

`Context::get_pipelines<T>` works on `pipeline_map : HashMap<TypeId,
Weak<Pipelines>>`; each window owns its own `Context`
(`DrawingWindow::new`, `layout.rs`). We model allocation identity of
`Arc<Pipelines>` bundles by a global allocation counter: two `Arc`s are
reference-equal exactly when they carry the same allocation id. `strong`
tracks each bundle's strong reference count; `ctxs win kind` is window
`win`'s registry entry for component kind `kind` (the `Weak` target). -/
structure PSystem where
  nextId : Nat
  strong : Nat → Nat
  ctxs : Nat → Nat → Option Nat

/-- `Weak::upgrade`: yields a strong reference while the strong count is
positive, `none` once the target was dropped. -/
def PSystem.upgrade (sys : PSystem) (b : Nat) : Option Nat :=
  if sys.strong b > 0 then some b else none

/-- The cache-miss path of `Context::get_pipelines`:
`Arc::new(T::generate_pipelines(self))` allocates a fresh bundle and
`pipeline_map.insert(TypeId::of::<T>(), Arc::downgrade(&arc))` overwrites
the registry entry; the strong reference is returned to the caller. -/
def PSystem.freshBundle (sys : PSystem) (win kind : Nat) : Nat × PSystem :=
  (sys.nextId,
   { nextId := sys.nextId + 1,
     strong := fun b => if b = sys.nextId then 1 else sys.strong b,
     ctxs := fun w k =>
       if w = win ∧ k = kind then some sys.nextId else sys.ctxs w k })

/-- `Context::get_pipelines` from `components/mod.rs`, run against window
`win`'s own `Context`: if the registry holds a weak reference whose
`upgrade` succeeds, return that bundle (strong count incremented by the
clone); otherwise generate a fresh bundle. -/
def PSystem.get_pipelines (sys : PSystem) (win kind : Nat) : Nat × PSystem :=
  match sys.ctxs win kind with
  | some b =>
    match sys.upgrade b with
    | some arc =>
      (arc, { sys with strong := fun i => if i = b then sys.strong b + 1 else sys.strong i })
    | none => sys.freshBundle win kind
  | none => sys.freshBundle win kind

/-- Dropping one strong reference to bundle `b` (a component of that kind
being destroyed). -/
def PSystem.dropStrong (sys : PSystem) (b : Nat) : PSystem :=
  { sys with strong := fun i => if i = b then sys.strong b - 1 else sys.strong i }

/-- The empty pipeline system: no allocations, every window's `Context`
fresh (`pipeline_map: HashMap::new()`). -/
def PSystem.empty : PSystem :=
  { nextId := 0, strong := fun _ => 0, ctxs := fun _ _ => none }


theorem wrap32_eq_self (z : Int) (h1 : -2 ^ 31 ≤ z) (h2 : z < 2 ^ 31) :
    wrap32 z = z := by
  unfold wrap32
  omega

theorem i32ofU32_eq_self (w : Nat) (h : w < 2 ^ 31) : i32ofU32 w = w := by
  unfold i32ofU32
  rw [Nat.mod_eq_of_lt (by omega), if_pos h]

/-- Claim C9 (amended): for every `Rect` whose size components fit in a
non-negative `i32` and whose far corner `pos + size` does not overflow
`i32`, `inside` is the inclusive-edge containment test: `r.inside p` holds
iff `pos.x ≤ p.x ≤ pos.x + w` and `pos.y ≤ p.y ≤ pos.y + h`; in
particular `r.inside r.pos` and `r.inside (r.pos + (w as i32, h as i32))`
hold. The overflow hypotheses are forced by `inside_overflow_corner`. -/
theorem inside_inclusive_containment (r : Rect) (p : Point)
    (hx0 : -2 ^ 31 ≤ r.pos.x) (hy0 : -2 ^ 31 ≤ r.pos.y)
    (hw : r.size.w < 2 ^ 31) (hh : r.size.h < 2 ^ 31)
    (hxw : r.pos.x + (r.size.w : Int) < 2 ^ 31)
    (hyh : r.pos.y + (r.size.h : Int) < 2 ^ 31) :
    (r.inside p = true ↔
      (r.pos.x ≤ p.x ∧ p.x ≤ r.pos.x + (r.size.w : Int) ∧
       r.pos.y ≤ p.y ∧ p.y ≤ r.pos.y + (r.size.h : Int))) ∧
    r.inside r.pos = true ∧
    r.inside (r.pos.add ⟨i32ofU32 r.size.w, i32ofU32 r.size.h⟩) = true := by
  have hw' : i32ofU32 r.size.w = r.size.w := i32ofU32_eq_self _ hw
  have hh' : i32ofU32 r.size.h = r.size.h := i32ofU32_eq_self _ hh
  have hwx : wrap32 (r.pos.x + i32ofU32 r.size.w) = r.pos.x + r.size.w := by
    rw [hw']; exact wrap32_eq_self _ (by omega) hxw
  have hwy : wrap32 (r.pos.y + i32ofU32 r.size.h) = r.pos.y + r.size.h := by
    rw [hh']; exact wrap32_eq_self _ (by omega) hyh
  refine ⟨?_, ?_, ?_⟩
  · simp [Rect.inside, hwx, hwy]
    tauto
  · simp [Rect.inside, hwx, hwy]
  · simp [Rect.inside, Point.add, hw', hh', hwx, hwy,
      wrap32_eq_self (r.pos.x + (r.size.w : Int)) (by omega) hxw,
      wrap32_eq_self (r.pos.y + (r.size.h : Int)) (by omega) hyh]

/-- Claim C9 counterexample: for `r = Rect{pos:(i32::MAX, 0), size:(1,1)}`
— a rectangle with non-negative size — the code's `i32` addition
`pos.x + size.w as i32` wraps, so `r.inside(r.pos)` is `false`, refuting
the claim's unconditional `r.inside(r.pos) == true`. -/
theorem inside_overflow_corner :
    Rect.inside ⟨⟨2147483647, 0⟩, ⟨1, 1⟩⟩ ⟨2147483647, 0⟩ = false := by decide

/-- Witness for `inside_inclusive_containment` at a concrete rectangle and
point. -/
theorem inside_witness :
    Rect.inside ⟨⟨-3, -3⟩, ⟨10, 10⟩⟩ ⟨7, 0⟩ = true := by
  exact ((inside_inclusive_containment ⟨⟨-3, -3⟩, ⟨10, 10⟩⟩ ⟨7, 0⟩ (by decide)
    (by decide) (by decide) (by decide) (by decide) (by decide)).1).mpr (by decide)


/-- Claim C8: the `Point → Size` conversion fails with the numeric-range
conversion error if and only if at least one coordinate is negative, and
for non-negative coordinates it returns the size with `w`/`h` equal to
those coordinates. -/
theorem size_tryFrom_spec (p : Point) :
    (Size.tryFrom p = none ↔ p.x < 0 ∨ p.y < 0) ∧
    (0 ≤ p.x → 0 ≤ p.y → Size.tryFrom p = some ⟨p.x.toNat, p.y.toNat⟩) := by
  unfold Size.tryFrom
  split_ifs with h1 h2 <;> simp_all


/-- Witness for `size_tryFrom_spec` at the point `(3, 4)`. -/
theorem size_tryFrom_witness :
    (Size.tryFrom ⟨3, 4⟩ = none ↔ (3 : Int) < 0 ∨ (4 : Int) < 0) ∧
    Size.tryFrom ⟨3, 4⟩ = some ⟨(3 : Int).toNat, (4 : Int).toNat⟩ :=
  ⟨(size_tryFrom_spec ⟨3, 4⟩).1,
   (size_tryFrom_spec ⟨3, 4⟩).2 (by decide) (by decide)⟩

/-- Claim C10: `get_mouse_relative r` returns `some (p - r.pos)` exactly
when a mouse position `p` is recorded and `r.inside p` holds, and `none`
when no position is recorded or the recorded position lies outside `r`. -/
theorem get_mouse_relative_spec (s : InputHandler) (r : Rect) :
    (s.mouse_position = none → s.get_mouse_relative r = none) ∧
    (∀ p, s.mouse_position = some p →
      (r.inside p = true → s.get_mouse_relative r = some (p.sub r.pos)) ∧
      (r.inside p = false → s.get_mouse_relative r = none)) := by
  rcases hs : s.mouse_position with _ | p
  · simp [InputHandler.get_mouse_relative, hs]
  · refine ⟨by simp [hs], ?_⟩
    intro q hq
    injection hq with hq
    subst hq
    constructor
    · intro hin
      simp [InputHandler.get_mouse_relative, hs, hin]
    · intro hin
      simp [InputHandler.get_mouse_relative, hs, hin]

/-- Witness for `get_mouse_relative_spec`: recorded position `(7,8)`
inside `Rect{pos:(5,5), size:(10,10)}` yields the relative position. -/
theorem get_mouse_relative_witness :
    InputHandler.get_mouse_relative ⟨some ⟨7, 8⟩⟩ ⟨⟨5, 5⟩, ⟨10, 10⟩⟩ =
      some (Point.sub ⟨7, 8⟩ ⟨5, 5⟩) :=
  ((get_mouse_relative_spec ⟨some ⟨7, 8⟩⟩ ⟨⟨5, 5⟩, ⟨10, 10⟩⟩).2 ⟨7, 8⟩ rfl).1
    (by decide)

/-- Claim C1: for the viewport `Rect{pos:(-5,-5), size:(20,20)}` the code's
`set_clipspace_rect` passes origin `(2^32 - 5, 2^32 - 5)` and size
`(20, 20)` to `set_scissor_rect`: the negative origin is cast to `u32`
before the clamp, so `max(_, 0)` and `min(_, 0)` are vacuous on unsigned
values and the origin wraps to a huge value instead of clamping to
`(0,0)` with size `(15,15)` as the spec's reference behavior
(`clipspaceRectSpec`) requires. This is the exact naive-cast bug §4.1 of
the spec warns about, so the code, not the claim, is wrong. -/
theorem set_clipspace_rect_wraps_negative_origin :
    set_clipspace_rect (some ⟨⟨-5, -5⟩, ⟨20, 20⟩⟩) =
      some ⟨4294967291, 4294967291, 20, 20⟩ ∧
    clipspaceRectSpec ⟨⟨-5, -5⟩, ⟨20, 20⟩⟩ = ⟨0, 0, 15, 15⟩ ∧
    set_clipspace_rect (some ⟨⟨-5, -5⟩, ⟨20, 20⟩⟩) ≠
      some (clipspaceRectSpec ⟨⟨-5, -5⟩, ⟨20, 20⟩⟩) := by decide


/-- Claim C3 (amended): after `event_handler` receives a close-requested
event only the pending-close flag is set (no immediate lifecycle
transition — `event_handler` returns no status), and the next `update`
call returns `Dead` and clears the flag — provided that update does not
early-return for a pending resize whose new drawable size is degenerate —
and the update after that returns `Alive` again, so exactly one update
yields `Dead`. The proviso is forced by
`close_deferred_by_degenerate_resize`. -/
theorem close_event_then_one_update_dead (s : DWState) (w h w2 h2 : Nat)
    (hnd : s.resized = true → w ≠ 0 ∧ h ≠ 0) :
    (s.event_handler .closeRequested).close = true ∧
    (s.event_handler .closeRequested).resized = s.resized ∧
    ((s.event_handler .closeRequested).update w h).status = .Dead ∧
    ((s.event_handler .closeRequested).update w h).state.close = false ∧
    (((s.event_handler .closeRequested).update w h).state.update w2 h2).status = .Alive := by
  simp only [DWState.event_handler]
  rcases hr : s.resized with _ | _
  · simp [DWState.update, hr]
  · obtain ⟨hw, hh⟩ := hnd hr
    simp [DWState.update, hr, hw, hh]

/-- Witness for `close_event_then_one_update_dead` on a window with no
pending resize. -/
theorem close_event_witness :
    (((DWState.mk false false 100 100 100 100).event_handler .closeRequested).update 7 7).status = .Dead := by
  exact (close_event_then_one_update_dead ⟨false, false, 100, 100, 100, 100⟩ 7 7 1 1
    (by simp)).2.2.1

/-- Claim C3 counterexample: a window with a pending resize that receives
a close event and whose drawable size is degenerate (width 0) at the next
`update` stays `Alive` on that update — `update` returns early from the
resize branch before examining the close flag — refuting \"the next
single call to update returns Dead ... regardless of the window's other
pending flags\". The close flag stays set, so a later update still
retires the window. -/
theorem close_deferred_by_degenerate_resize :
    (((DWState.mk true false 100 100 100 100).event_handler .closeRequested).update 0 100).status = .Alive ∧
    (((DWState.mk true false 100 100 100 100).event_handler .closeRequested).update 0 100).state.close = true := by
  decide

/-- Claim C4: `update` with the pending-resize flag set and a degenerate
new drawable size (zero width or height) returns `Alive`, does not
reconfigure the presentation surface, leaves the surface configuration
untouched, and clears the pending-resize flag, so a subsequent `update`
does not retry the reconfiguration. -/
theorem update_degenerate_resize (s : DWState) (newW newH w2 h2 : Nat)
    (hr : s.resized = true) (hd : newW = 0 ∨ newH = 0) :
    (s.update newW newH).status = .Alive ∧
    (s.update newW newH).reconfigured = false ∧
    (s.update newW newH).state.resized = false ∧
    (s.update newW newH).state.configW = s.configW ∧
    (s.update newW newH).state.configH = s.configH ∧
    ((s.update newW newH).state.update w2 h2).reconfigured = false := by
  have hupd : s.update newW newH = ⟨{ s with resized := false }, .Alive, false⟩ := by
    unfold DWState.update
    rw [if_pos hr, if_pos hd]
  rw [hupd]
  refine ⟨rfl, rfl, rfl, rfl, rfl, ?_⟩
  unfold DWState.update
  rcases hc : s.close <;> simp

/-- Witness for `update_degenerate_resize` with pending resize to width 0. -/
theorem update_degenerate_resize_witness :
    ((DWState.mk true false 3 3 3 3).update 0 5).status = .Alive ∧
    ((DWState.mk true false 3 3 3 3).update 0 5).reconfigured = false ∧
    ((DWState.mk true false 3 3 3 3).update 0 5).state.resized = false ∧
    ((DWState.mk true false 3 3 3 3).update 0 5).state.configW = 3 ∧
    ((DWState.mk true false 3 3 3 3).update 0 5).state.configH = 3 ∧
    (((DWState.mk true false 3 3 3 3).update 0 5).state.update 4 4).reconfigured = false :=
  update_degenerate_resize ⟨true, false, 3, 3, 3, 3⟩ 0 5 4 4 rfl (Or.inl rfl)

/-- Claim C6: `render` classifies surface-image acquisition outcomes
exactly as the claim states: `Lost` sets the pending-resize flag (and the
next non-degenerate `update` reconfigures the surface), `OutOfMemory`
sets the pending-close flag (and the next `update` returns `Dead`), any
other acquisition error (`Timeout`, `Outdated`) emits one diagnostic and
changes nothing, and a successful acquisition presents the frame. -/
theorem render_error_classification (s : DWState) (w h : Nat) :
    (s.render .lost = ⟨{ s with resized := true }, 0, false⟩ ∧
      (w ≠ 0 → h ≠ 0 → ((s.render .lost).state.update w h).reconfigured = true)) ∧
    (s.render .outOfMemory = ⟨{ s with close := true }, 0, false⟩ ∧
      (s.resized = false → ((s.render .outOfMemory).state.update w h).status = .Dead)) ∧
    (s.render .timeout = ⟨s, 1, false⟩ ∧ s.render .outdated = ⟨s, 1, false⟩) ∧
    s.render .ok = ⟨s, 0, true⟩ := by
  refine ⟨⟨rfl, ?_⟩, ⟨rfl, ?_⟩, ⟨rfl, rfl⟩, rfl⟩
  · intro hw hh
    simp only [DWState.render, DWState.update]
    simp [hw, hh]
    rcases hc : s.close <;> simp
  · intro hr
    simp [DWState.render, DWState.update, hr]

/-- Witness for `render_error_classification` on a concrete window
state. -/
theorem render_error_witness :
    (DWState.mk false false 9 9 9 9).render .lost =
      ⟨⟨true, false, 9, 9, 9, 9⟩, 0, false⟩ ∧
    (((DWState.mk false false 9 9 9 9).render .lost).state.update 5 5).reconfigured = true ∧
    (((DWState.mk false false 9 9 9 9).render .outOfMemory).state.update 5 5).status = .Dead :=
  ⟨(render_error_classification ⟨false, false, 9, 9, 9, 9⟩ 5 5).1.1,
   (render_error_classification ⟨false, false, 9, 9, 9, 9⟩ 5 5).1.2 (by decide) (by decide),
   (render_error_classification ⟨false, false, 9, 9, 9, 9⟩ 5 5).2.1.2 rfl⟩

/-- Claim C7 (amended): an event whose window-id is not a key of the live
map is a non-fatal no-op with no state change for both arms; the
`WindowEvent` arm additionally prints one diagnostic, while the
redraw-request/redraw-signal arm is silent (zero diagnostics), as forced
by `unknown_redraw_silently_ignored`. -/
theorem unknown_window_id_dispatch (m : List (Nat × DWState)) (wid : Nat)
    (e : WinEvent) (sr : SurfaceResult) (hm : m.lookup wid = none) :
    dispatchWindowEvent m wid e = (m, 1) ∧ dispatchRedraw m wid sr = (m, 0) := by
  unfold dispatchWindowEvent dispatchRedraw
  rw [hm]
  exact ⟨rfl, rfl⟩

/-- Witness for `unknown_window_id_dispatch`: a close request for the
unknown id 42 against a one-window map is dropped with one diagnostic. -/
theorem unknown_window_id_witness :
    dispatchWindowEvent [(1, DWState.mk false false 1 1 1 1)] 42 .closeRequested =
      ([(1, DWState.mk false false 1 1 1 1)], 1) :=
  (unknown_window_id_dispatch [(1, ⟨false, false, 1, 1, 1, 1⟩)] 42 .closeRequested .ok
    (by decide)).1

/-- Claim C7 counterexample: a redraw request for the unknown id 42 is
dropped with zero diagnostics, refuting the claim that a diagnostic is
emitted for redraw requests/signals targeting unknown ids. -/
theorem unknown_redraw_silently_ignored :
    dispatchRedraw [(1, DWState.mk false false 1 1 1 1)] 42 .ok =
      ([(1, DWState.mk false false 1 1 1 1)], 0) := by
  decide


theorem adoptAll_collision (cs : List Nat) :
    ∀ (m : List Nat) (c : Nat), c ∈ m → c ∈ cs → adoptAll m cs = none := by
  induction cs with
  | nil => intro m c _ hc; cases hc
  | cons a rest ih =>
    intro m c hm hc
    unfold adoptAll
    by_cases ha : a ∈ m
    · rw [if_pos ha]
    · rw [if_neg ha]
      rcases List.mem_cons.mp hc with hca | hcr
      · exact absurd (hca ▸ hm) ha
      · exact ih (m ++ [a]) c (List.mem_append_left _ hm) hcr

theorem adoptAll_singleton (m : List Nat) (c : Nat) (hc : c ∉ m) :
    adoptAll m [c] = some (m ++ [c]) := by
  unfold adoptAll
  rw [if_neg hc]
  rfl

/-- Claim C5: in the per-tick commit phase, adopting a child whose id
equals a currently-live, non-retiring window's id hits the
`panic!` (modelled as `none`), while adopting a child whose id equals its
own parent's id succeeds when the parent reported `Dead` in the same
cycle, because every removal is applied before any addition. -/
theorem tickCommit_collision_and_handoff :
    (∀ (ws : List MuxEntry) (w : MuxEntry) (c : Nat),
      (ws.map (fun v => v.id)).Nodup → w ∈ ws → w.status ≠ .Dead → w.id = c →
      c ∈ ws.filterMap (fun v => v.child) → tickCommit ws = none) ∧
    (∀ (ws : List MuxEntry) (w : MuxEntry),
      w ∈ ws → w.status = .Dead → ws.filterMap (fun v => v.child) = [w.id] →
      ∃ m, tickCommit ws = some m ∧ w.id ∈ m) := by
  constructor
  · intro ws w c hnd hw hstat hid hc
    simp only [tickCommit]
    apply adoptAll_collision _ _ c _ hc
    apply List.mem_filter_of_mem
    · exact hid ▸ List.mem_map_of_mem _ hw
    · simp only [decide_eq_true_eq]
      intro hmem
      obtain ⟨v, hv, hvid⟩ := List.mem_map.mp hmem
      have hvws := (List.mem_filter.mp hv).1
      have hvdead := of_decide_eq_true (List.mem_filter.mp hv).2
      have hwv : w = v :=
        List.inj_on_of_nodup_map hnd hw hvws (by rw [hid, hvid])
      exact hstat (hwv ▸ hvdead)
  · intro ws w hw hdead hchild
    simp only [tickCommit]
    rw [hchild]
    have hwid : w.id ∈ (ws.filter (fun v => v.status = WindowLifeStatus.Dead)).map
        (fun v => v.id) :=
      List.mem_map_of_mem _ (List.mem_filter.mpr ⟨hw, by simp [hdead]⟩)
    have hnot : w.id ∉ (ws.map (fun v => v.id)).filter
        (fun i => ¬ i ∈ (ws.filter (fun v => v.status = WindowLifeStatus.Dead)).map
          (fun v => v.id)) := by
      intro hmem
      have h2 := (List.mem_filter.mp hmem).2
      simp only [decide_eq_true_eq] at h2
      exact h2 hwid
    rw [adoptAll_singleton _ _ hnot]
    exact ⟨_, rfl, List.mem_append_right _ (List.mem_singleton.mpr rfl)⟩

/-- Witness for `tickCommit_collision_and_handoff`: a child colliding with
the live window 1 panics; a dead parent handing its id 5 to its child
succeeds. -/
theorem tickCommit_witness :
    tickCommit [⟨1, .Alive, none⟩, ⟨2, .Dead, some 1⟩] = none ∧
    (∃ m, tickCommit [⟨5, .Dead, some 5⟩] = some m ∧ 5 ∈ m) :=
  ⟨tickCommit_collision_and_handoff.1 [⟨1, .Alive, none⟩, ⟨2, .Dead, some 1⟩]
      ⟨1, .Alive, none⟩ 1 (by decide) (by decide) (by decide) rfl (by decide),
   tickCommit_collision_and_handoff.2 [⟨5, .Dead, some 5⟩] ⟨5, .Dead, some 5⟩
      (by decide) rfl (by decide)⟩

theorem get_pipelines_hit (sys : PSystem) (win kind b : Nat)
    (hreg : sys.ctxs win kind = some b) (hpos : 0 < sys.strong b) :
    sys.get_pipelines win kind =
      (b, { sys with strong := fun i => if i = b then sys.strong b + 1 else sys.strong i }) := by
  unfold PSystem.get_pipelines PSystem.upgrade
  rw [hreg]
  simp [hpos]

theorem get_pipelines_stale (sys : PSystem) (win kind b : Nat)
    (hreg : sys.ctxs win kind = some b) (hz : sys.strong b = 0) :
    sys.get_pipelines win kind = sys.freshBundle win kind := by
  unfold PSystem.get_pipelines PSystem.upgrade
  rw [hreg]
  simp [hz]

theorem get_pipelines_vacant (sys : PSystem) (win kind : Nat)
    (hreg : sys.ctxs win kind = none) :
    sys.get_pipelines win kind = sys.freshBundle win kind := by
  unfold PSystem.get_pipelines
  rw [hreg]

/-- Claim C2 (amended): against one window's own `Context`, two
`get_pipelines` requests for a kind whose cached bundle still has a
strong reference return the identical (reference-equal) bundle; once
every strong reference is dropped, the next request allocates a fresh,
non-identical bundle and overwrites the stale registry entry; and a
request from a different window — whose own `Context` has no entry for
the kind — always allocates a distinct bundle, so bundles are never
shared across windows (forced by `pipelines_not_shared_across_windows`:
each `DrawingWindow::new` builds its own `Context`). -/
theorem get_pipelines_cache (sys : PSystem) (win win2 kind b : Nat)
    (hreg : sys.ctxs win kind = some b) (hb : b < sys.nextId) :
    (0 < sys.strong b →
      (sys.get_pipelines win kind).1 = b ∧
      ((sys.get_pipelines win kind).2.get_pipelines win kind).1 = b) ∧
    (sys.strong b = 0 →
      (sys.get_pipelines win kind).1 = sys.nextId ∧
      (sys.get_pipelines win kind).1 ≠ b ∧
      (sys.get_pipelines win kind).2.ctxs win kind = some sys.nextId) ∧
    (sys.ctxs win2 kind = none →
      (sys.get_pipelines win2 kind).1 = sys.nextId ∧
      (sys.get_pipelines win2 kind).1 ≠ b) := by
  refine ⟨?_, ?_, ?_⟩
  · intro hpos
    have h1 := get_pipelines_hit sys win kind b hreg hpos
    have hreg' : (sys.get_pipelines win kind).2.ctxs win kind = some b := by
      rw [h1]; exact hreg
    have hpos' : 0 < (sys.get_pipelines win kind).2.strong b := by
      rw [h1]; simp
    rw [get_pipelines_hit _ win kind b hreg' hpos', h1]
    exact ⟨rfl, rfl⟩
  · intro hz
    rw [get_pipelines_stale sys win kind b hreg hz]
    refine ⟨rfl, by simpa using Nat.ne_of_gt hb, ?_⟩
    unfold PSystem.freshBundle
    simp
  · intro hvac
    rw [get_pipelines_vacant sys win2 kind hvac]
    exact ⟨rfl, by simpa using Nat.ne_of_gt hb⟩

/-- Witness for `get_pipelines_cache` on a system with one live bundle
registered for window 0. -/
theorem get_pipelines_cache_witness :
    ((PSystem.mk 1 (fun b => if b = 0 then 1 else 0)
        (fun w k => if w = 0 ∧ k = 0 then some 0 else none)).get_pipelines 0 0).1 = 0 ∧
    ((PSystem.mk 1 (fun b => if b = 0 then 1 else 0)
        (fun w k => if w = 0 ∧ k = 0 then some 0 else none)).get_pipelines 1 0).1 = 1 := by
  have h := get_pipelines_cache (PSystem.mk 1 (fun b => if b = 0 then 1 else 0)
    (fun w k => if w = 0 ∧ k = 0 then some 0 else none)) 0 1 0 0 (by decide) (by decide)
  exact ⟨(h.1 (by decide)).1, (h.2.2 (by decide)).1⟩

/-- Claim C2 counterexample: window 1 obtains bundle 0 and holds a strong
reference to it, yet window 2's request for the same component kind
allocates bundle 1 ≠ bundle 0 — the bundles are not reference-equal even
though an instance of the kind is alive, because each window owns a
separate `Context` registry. -/
theorem pipelines_not_shared_across_windows :
    (PSystem.empty.get_pipelines 1 0).1 = 0 ∧
    0 < (PSystem.empty.get_pipelines 1 0).2.strong 0 ∧
    ((PSystem.empty.get_pipelines 1 0).2.get_pipelines 2 0).1 = 1 ∧
    (PSystem.empty.get_pipelines 1 0).1 ≠
      ((PSystem.empty.get_pipelines 1 0).2.get_pipelines 2 0).1 := by
  refine ⟨rfl, ?_, rfl, by decide⟩
  decide

end Pntr
